import Mathlib

/-!
Verification of the wineapi booking backend core: recurrence expansion
(api/models.py, Event.calculate_dates_in_threshold), the cancellation
lifecycle, the reservation ledger and the reporting aggregation pipeline
(api/views.py, ReportsView.get and the cancel/create actions).

Dates are embedded as proleptic Gregorian ordinals (Int), exactly the day
arithmetic Python performs on datetime.date: adding a timedelta of i days
adds i to the ordinal, and date.weekday() is (ordinal - 1) mod 7 with
Monday = 0 (ordinal 1, year 1 Jan 1, is a Monday).
-/

namespace WineApi

/-- Python date.weekday() on an ordinal day number: Monday = 0 .. Sunday = 6. -/
def pyWeekday (day : Int) : Int := (day - 1) % 7

/-- Embedding of Event.calculate_dates_in_threshold (api/models.py lines 73-85).
If end is None the single date start is returned.  Otherwise Python iterates
i over range((end - start).days + 1) — empty when the count is nonpositive —
and keeps start + i days when its weekday is in weekdays. -/
def calculate_dates_in_threshold (start : Int) (endD : Option Int)
    (weekdays : List Int) : List Int :=
  match endD with
  | none => [start]
  | some e =>
    let days_between : Nat := (e - start + 1).toNat
    ((List.range days_between).map (fun (i : Nat) => start + (i : Int))).filter
      (fun day => decide (pyWeekday day ∈ weekdays))

/-- C1: with a null end, expand returns [start] for any weekday set; with a
non-null end it returns exactly the days of the inclusive range [start, end]
whose weekday lies in the weekday set, strictly ascending (hence without
duplicates).  The range clause is stated for every start and end: when
start > end both sides of the membership equivalence are empty. -/
theorem c1_expand_characterization (start e : Int) (weekdays : List Int) :
    calculate_dates_in_threshold start none weekdays = [start]
    ∧ (calculate_dates_in_threshold start (some e) weekdays).Pairwise (· < ·)
    ∧ ∀ d : Int, d ∈ calculate_dates_in_threshold start (some e) weekdays ↔
        (start ≤ d ∧ d ≤ e ∧ pyWeekday d ∈ weekdays) := by
  refine ⟨rfl, ?_, ?_⟩
  · simp only [calculate_dates_in_threshold]
    apply List.Pairwise.filter
    exact List.Pairwise.map _ (fun a b hab => by omega) (List.pairwise_lt_range _)
  · intro d
    simp only [calculate_dates_in_threshold]
    constructor
    · intro hd
      rw [List.mem_filter] at hd
      obtain ⟨hmem, hw⟩ := hd
      rw [List.mem_map] at hmem
      obtain ⟨i, hi, rfl⟩ := hmem
      rw [List.mem_range] at hi
      rw [decide_eq_true_eq] at hw
      exact ⟨by omega, by omega, hw⟩
    · rintro ⟨h1, h2, hw⟩
      rw [List.mem_filter, List.mem_map]
      refine ⟨⟨(d - start).toNat, ?_, by omega⟩, by rw [decide_eq_true_eq]; exact hw⟩
      rw [List.mem_range]
      omega

/-- C9: when end is non-null and start is after end, the day count
(end - start).days + 1 is nonpositive, the Python range is empty, and the
function returns the empty list (it raises nothing: it is total). -/
theorem c9_expand_empty_when_reversed (start e : Int) (weekdays : List Int)
    (h : e < start) :
    calculate_dates_in_threshold start (some e) weekdays = [] := by
  unfold calculate_dates_in_threshold
  have hz : (e - start + 1).toNat = 0 := by omega
  simp [hz]

/-- Witness for C9 at the concrete input start = 5, end = 3. -/
theorem c9_witness :
    (3 : Int) < 5 ∧ calculate_dates_in_threshold 5 (some 3) [0, 2] = [] :=
  ⟨by decide, c9_expand_empty_when_reversed 5 3 [0, 2] (by decide)⟩

/-! ## Data model

Rows are embedded denormalized: a reservation row carries its occurrence
joined with its event, as the ORM traversals event_occurrence__event__...
read them.  Timestamps keep the fields the report and the filters read:
calendar components compared lexicographically, exactly the order of
Python datetimes within the supported range. -/

/-- A timestamp: year, month, day, hour, minute, second. -/
structure DateTime where
  year : Int
  month : Int
  day : Int
  hour : Int
  minute : Int
  second : Int
deriving DecidableEq, Repr

/-- Lexicographic comparison of timestamps, as Python compares datetimes. -/
def DateTime.cmp (a b : DateTime) : Ordering :=
  (compare a.year b.year).then ((compare a.month b.month).then
    ((compare a.day b.day).then ((compare a.hour b.hour).then
      ((compare a.minute b.minute).then (compare a.second b.second)))))

/-- a ≤ b on timestamps. -/
def DateTime.le (a b : DateTime) : Bool :=
  match a.cmp b with
  | Ordering.gt => false
  | _ => true

/-- An Event row: id, name, owning winery, cancellation timestamp and reason
(api/models.py Event; the cancellation pair per the migrations and the
cancel endpoints). -/
structure EventRec where
  id : Int
  name : String
  wineryId : Int
  cancelled : Option DateTime
  cancel_reason : Option String
deriving DecidableEq, Repr

/-- An EventOccurrence row joined with its event (api/models.py
EventOccurrence): start, end, vacancies, event, cancellation pair. -/
structure OccurrenceRec where
  start : DateTime
  endTime : DateTime
  vacancies : Int
  event : EventRec
  cancelled : Option DateTime
  cancel_reason : Option String
deriving DecidableEq, Repr

/-- The tourist fields the report reads (users/models.py WineUser):
birth year (birth_date is nullable, only its year is used), language name
and country name. -/
structure TouristRec where
  birth_year : Option Int
  language : String
  country : String
deriving DecidableEq, Repr

/-- A Reservation row joined with its user and occurrence: attendee count,
paid amount, reserving tourist, target occurrence, cancellation pair. -/
structure ReservationRec where
  attendee_number : Int
  paid_amount : ℚ
  user : TouristRec
  event_occurrence : OccurrenceRec
  cancelled : Option DateTime
  cancel_reason : Option String
deriving DecidableEq, Repr

/-- A Rate row joined with its event: integer rating, creation timestamp,
rated event. -/
structure RateRec where
  rate : Int
  created : DateTime
  event : EventRec
deriving DecidableEq, Repr

/-! ## Cancellation state machine

The model-level cancel methods and the DEFAULT_CANCELLATION_REASON constant
live in api/models.py and the api package init, which are not part of the
sources here (only the views that call them are); they are modelled from
the spec below.  The view wrappers themselves follow api/views.py. -/

/-- Modelled from the spec: the system-wide default cancellation reason
string (the DEFAULT_CANCELLATION_REASON constant of the api package, whose
source is not included); its exact text is immaterial to the theorems. -/
def DEFAULT_CANCELLATION_REASON : String := "No reason given"

/-- Modelled from the spec: the cancel method shared by Event,
EventOccurrence and Reservation (their model code is not included; spec
section 4.3).  The transition active to cancelled records the timestamp and
the optional reason, defaulting to the system-wide default reason string
when omitted; once cancelled it is terminal and a repeated cancel is a
no-op that still returns a success confirmation. -/
def cancelPair (cancelled : Option DateTime) (reason : Option String)
    (reasonArg : Option String) (now : DateTime) :
    Option DateTime × Option String :=
  match cancelled with
  | some t => (some t, reason)
  | none => (some now, some (reasonArg.getD DEFAULT_CANCELLATION_REASON))

/-- EventsView.cancel_event (api/views.py lines 132-146): an already
cancelled event is answered with HTTP 200 without touching it; otherwise
the reason defaults to DEFAULT_CANCELLATION_REASON in the view and the
event is cancelled, answered with HTTP 200.  Authorization is external and
elided. -/
def cancel_event_view (e : EventRec) (reasonArg : Option String)
    (now : DateTime) : EventRec × Nat :=
  if e.cancelled.isSome then (e, 200)
  else
    let reason := reasonArg.getD DEFAULT_CANCELLATION_REASON
    let p := cancelPair e.cancelled e.cancel_reason (some reason) now
    ({ e with cancelled := p.1, cancel_reason := p.2 }, 200)

/-- EventOccurrencesView.cancel_occurrence (api/views.py lines 557-566):
an already cancelled occurrence is answered with HTTP 200 untouched;
otherwise the raw optional reason is passed to the model cancel (this view
does not default it) and HTTP 200 is returned. -/
def cancel_occurrence_view (o : OccurrenceRec) (reasonArg : Option String)
    (now : DateTime) : OccurrenceRec × Nat :=
  if o.cancelled.isSome then (o, 200)
  else
    let p := cancelPair o.cancelled o.cancel_reason reasonArg now
    ({ o with cancelled := p.1, cancel_reason := p.2 }, 200)

/-- ReservationView.cancel_reservation (api/views.py lines 416-428): no
already-cancelled guard; the reason defaults in the view and the model
cancel is invoked, answered with HTTP 200. -/
def cancel_reservation_view (r : ReservationRec) (reasonArg : Option String)
    (now : DateTime) : ReservationRec × Nat :=
  let reason := reasonArg.getD DEFAULT_CANCELLATION_REASON
  let p := cancelPair r.cancelled r.cancel_reason (some reason) now
  ({ r with cancelled := p.1, cancel_reason := p.2 }, 200)

/-- EventReservationsView.cancel_reservation (api/views.py lines 766-773):
no already-cancelled guard, raw optional reason passed through, HTTP 200. -/
def event_reservations_cancel_view (r : ReservationRec) (reasonArg : Option String)
    (now : DateTime) : ReservationRec × Nat :=
  let p := cancelPair r.cancelled r.cancel_reason reasonArg now
  ({ r with cancelled := p.1, cancel_reason := p.2 }, 200)

/-- C3: cancelling twice, through any of the cancel endpoints of the three
entity kinds, reports success (HTTP 200) both times, and the second request
is a no-op: it leaves the cancellation timestamp and reason — indeed the
whole record — exactly as the first cancel left them. -/
theorem c3_cancel_idempotent (e : EventRec) (o : OccurrenceRec)
    (r r' : ReservationRec) (a1 a2 b1 b2 c1 c2 d1 d2 : Option String)
    (t1 t2 u1 u2 v1 v2 w1 w2 : DateTime) :
    ((cancel_event_view e a1 t1).2 = 200
      ∧ (cancel_event_view (cancel_event_view e a1 t1).1 a2 t2).2 = 200
      ∧ (cancel_event_view (cancel_event_view e a1 t1).1 a2 t2).1
          = (cancel_event_view e a1 t1).1)
    ∧ ((cancel_occurrence_view o b1 u1).2 = 200
      ∧ (cancel_occurrence_view (cancel_occurrence_view o b1 u1).1 b2 u2).2 = 200
      ∧ (cancel_occurrence_view (cancel_occurrence_view o b1 u1).1 b2 u2).1
          = (cancel_occurrence_view o b1 u1).1)
    ∧ ((cancel_reservation_view r c1 v1).2 = 200
      ∧ (cancel_reservation_view (cancel_reservation_view r c1 v1).1 c2 v2).2 = 200
      ∧ (cancel_reservation_view (cancel_reservation_view r c1 v1).1 c2 v2).1
          = (cancel_reservation_view r c1 v1).1)
    ∧ ((event_reservations_cancel_view r' d1 w1).2 = 200
      ∧ (event_reservations_cancel_view
          (event_reservations_cancel_view r' d1 w1).1 d2 w2).2 = 200
      ∧ (event_reservations_cancel_view
          (event_reservations_cancel_view r' d1 w1).1 d2 w2).1
          = (event_reservations_cancel_view r' d1 w1).1) := by
  refine ⟨⟨?_, ?_, ?_⟩, ⟨?_, ?_, ?_⟩, ⟨?_, ?_, ?_⟩, ⟨?_, ?_, ?_⟩⟩ <;>
    · first
      | (cases he : e.cancelled <;>
          simp [cancel_event_view, cancelPair, he])
      | (cases ho : o.cancelled <;>
          simp [cancel_occurrence_view, cancelPair, ho])
      | (cases hr : r.cancelled <;>
          simp [cancel_reservation_view, cancelPair, hr])
      | (cases hr : r'.cancelled <;>
          simp [event_reservations_cancel_view, cancelPair, hr])

/-- C7: on an active entity of any of the three kinds, a cancel request that
omits the reason records the system-wide default reason string: the event
and reservation views default it themselves, while the occurrence and
event-reservation views pass the omitted reason through to the model cancel,
which applies the same default. -/
theorem c7_default_reason (e : EventRec) (o : OccurrenceRec)
    (r r' : ReservationRec) (now : DateTime)
    (he : e.cancelled = none) (ho : o.cancelled = none)
    (hr : r.cancelled = none) (hr' : r'.cancelled = none) :
    (cancel_event_view e none now).1.cancel_reason
        = some DEFAULT_CANCELLATION_REASON
    ∧ (cancel_occurrence_view o none now).1.cancel_reason
        = some DEFAULT_CANCELLATION_REASON
    ∧ (cancel_reservation_view r none now).1.cancel_reason
        = some DEFAULT_CANCELLATION_REASON
    ∧ (event_reservations_cancel_view r' none now).1.cancel_reason
        = some DEFAULT_CANCELLATION_REASON := by
  refine ⟨?_, ?_, ?_, ?_⟩
  · simp [cancel_event_view, cancelPair, he]
  · simp [cancel_occurrence_view, cancelPair, ho]
  · simp [cancel_reservation_view, cancelPair, hr]
  · simp [event_reservations_cancel_view, cancelPair, hr']

/-- A fixed timestamp used by concrete witnesses. -/
def dt0 : DateTime := ⟨2020, 10, 31, 20, 0, 0⟩

/-- An active sample event. -/
def sampleEvent : EventRec :=
  ⟨1, "Experiencia Malbec", 1, none, none⟩

/-- An active sample occurrence of the sample event. -/
def sampleOcc : OccurrenceRec :=
  ⟨⟨2020, 10, 31, 20, 0, 0⟩, ⟨2020, 10, 31, 23, 0, 0⟩, 50, sampleEvent, none, none⟩

/-- A sample tourist. -/
def sampleTourist : TouristRec := ⟨some 2000, "Spanish", "Argentina"⟩

/-- An active sample reservation of the sample occurrence. -/
def sampleResv : ReservationRec :=
  ⟨2, 1000, sampleTourist, sampleOcc, none, none⟩

/-- Witness for C7 on concrete active entities. -/
theorem c7_witness :
    sampleEvent.cancelled = none ∧ sampleOcc.cancelled = none
    ∧ sampleResv.cancelled = none
    ∧ (cancel_event_view sampleEvent none dt0).1.cancel_reason
        = some DEFAULT_CANCELLATION_REASON
    ∧ (cancel_occurrence_view sampleOcc none dt0).1.cancel_reason
        = some DEFAULT_CANCELLATION_REASON
    ∧ (cancel_reservation_view sampleResv none dt0).1.cancel_reason
        = some DEFAULT_CANCELLATION_REASON
    ∧ (event_reservations_cancel_view sampleResv none dt0).1.cancel_reason
        = some DEFAULT_CANCELLATION_REASON := by
  have h := c7_default_reason sampleEvent sampleOcc sampleResv sampleResv dt0
    rfl rfl rfl rfl
  exact ⟨rfl, rfl, rfl, h.1, h.2.1, h.2.2.1, h.2.2.2⟩

/-! ## Reservation ledger -/

/-- The error kinds the API can answer with (spec section 7); conflict is
listed so that the absence of an oversell rejection is expressible. -/
inductive ApiError where
  | badDateFormat : ApiError
  | validation : ApiError
  | notFound : ApiError
  | permission : ApiError
  | conflict : ApiError
deriving DecidableEq, Repr

/-- ReservationView.create on validated data (api/views.py lines 398-414):
the reservation row is persisted, then — as a separate second step — the
occurrence vacancy counter is decremented by the attendee count.  No branch
compares the attendee count with the remaining vacancies, so no error can
be produced here. -/
def reservation_create (occ : OccurrenceRec) (attendee_number : Int)
    (paid_amount : ℚ) (user : TouristRec) :
    Except ApiError (ReservationRec × OccurrenceRec) :=
  let reservation : ReservationRec :=
    ⟨attendee_number, paid_amount, user, occ, none, none⟩
  let occ2 := { occ with vacancies := occ.vacancies - attendee_number }
  Except.ok (reservation, occ2)

/-- C4: a reserve call for n attendees against an occurrence with v
remaining vacancies always succeeds, leaves the counter at v - n, is
allowed to drive it negative when n exceeds v, and never produces any
error — in particular never a conflict error. -/
theorem c4_reserve_no_oversell_guard (occ : OccurrenceRec) (n : Int)
    (paid : ℚ) (user : TouristRec) :
    reservation_create occ n paid user
        = Except.ok (⟨n, paid, user, occ, none, none⟩,
            { occ with vacancies := occ.vacancies - n })
    ∧ (occ.vacancies < n →
        ((reservation_create occ n paid user).toOption.map
          (fun p => p.2.vacancies)) = some (occ.vacancies - n)
        ∧ occ.vacancies - n < 0)
    ∧ ∀ err : ApiError, reservation_create occ n paid user ≠ Except.error err := by
  refine ⟨rfl, ?_, ?_⟩
  · intro h
    exact ⟨rfl, by omega⟩
  · intro err h
    exact Except.noConfusion h

/-- Witness for C4: five attendees against a single vacancy succeed and
leave the counter at minus four. -/
theorem c4_witness :
    ({ sampleOcc with vacancies := 1 } : OccurrenceRec).vacancies < 5
    ∧ ((reservation_create { sampleOcc with vacancies := 1 } 5 1000
          sampleTourist).toOption.map (fun p => p.2.vacancies)) = some (-4)
    ∧ (1 : Int) - 5 < 0 :=
  ⟨by decide,
    ((c4_reserve_no_oversell_guard { sampleOcc with vacancies := 1 } 5 1000
      sampleTourist).2.1 (by decide)).1,
    ((c4_reserve_no_oversell_guard { sampleOcc with vacancies := 1 } 5 1000
      sampleTourist).2.1 (by decide)).2⟩

/-! ## Reporting aggregation pipeline (ReportsView.get, api/views.py 635-746)

Each Django values/annotate chain is a group-by: groups are the distinct
keys in first-appearance order (the SQL engine fixes no order; order_by
clauses of the source are applied on top of it with a stable sort, so
every ordering the source promises is preserved). -/

/-- reservations_by_event: count per event name, ascending by count, top 10
(api/views.py 662-669). -/
def reservations_by_event_agg (rs : List ReservationRec) : List (String × Nat) :=
  let names := (rs.map (fun r => r.event_occurrence.event.name)).dedup
  let rows := names.map (fun n =>
    (n, rs.countP (fun r => r.event_occurrence.event.name == n)))
  (rows.mergeSort (fun a b => a.2 ≤ b.2)).take 10

/-- The grouped reservations_by_month query: count per month of the
occurrence start, ascending by month, only months present
(api/views.py 670-677). -/
def reservations_by_month_grouped (rs : List ReservationRec) :
    List (Int × Nat) :=
  let months := (rs.map (fun r => r.event_occurrence.start.month)).dedup
  (months.mergeSort (fun a b => a ≤ b)).map
    (fun m => (m, rs.countP (fun r => r.event_occurrence.start.month == m)))

/-- The zero-fill post-process (api/views.py 733-741): a12-entry list for
months 1..12 with count 0, each grouped row written over the slot at index
month - 1. -/
def reservations_by_month_agg (rs : List ReservationRec) : List (Int × Nat) :=
  let base := (List.range 12).map (fun (i : Nat) => ((i : Int) + 1, 0))
  (reservations_by_month_grouped rs).foldl
    (fun acc mc => acc.set (mc.1 - 1).toNat mc) base

/-- attendees_languages: count per tourist language name, no ordering, no
zero fill (api/views.py 678-684). -/
def attendees_languages_agg (rs : List ReservationRec) : List (String × Nat) :=
  ((rs.map (fun r => r.user.language)).dedup).map
    (fun n => (n, rs.countP (fun r => r.user.language == n)))

/-- attendees_countries: count per tourist country name
(api/views.py 685-691). -/
def attendees_countries_agg (rs : List ReservationRec) : List (String × Nat) :=
  ((rs.map (fun r => r.user.country)).dedup).map
    (fun n => (n, rs.countP (fun r => r.user.country == n)))

/-- The young flag of a reservation (api/views.py 694-698): 1 when the
tourist birth year lies in [today.year - 35, today.year - 18], else 0; a
missing birth date makes every SQL range test false. -/
def youngFlag (todayYear : Int) (r : ReservationRec) : Int :=
  match r.user.birth_year with
  | some y => if todayYear - 35 ≤ y ∧ y ≤ todayYear - 18 then 1 else 0
  | none => 0

/-- The midage flag (api/views.py 699-703): birth year in
[today.year - 50, today.year - 35 - 1]. -/
def midageFlag (todayYear : Int) (r : ReservationRec) : Int :=
  match r.user.birth_year with
  | some y => if todayYear - 50 ≤ y ∧ y ≤ todayYear - 35 - 1 then 1 else 0
  | none => 0

/-- The old flag (api/views.py 704-708): birth year before
today.year - 50. -/
def oldFlag (todayYear : Int) (r : ReservationRec) : Int :=
  match r.user.birth_year with
  | some y => if y < todayYear - 50 then 1 else 0
  | none => 0

/-- attendees_age_groups (api/views.py 692-714): the three flags are summed
over the reservations; a Django aggregate Sum over an empty queryset is
null.  The thresholds (today - relativedelta(years=k)).year always equal
today.year - k, so the aggregation depends on today only through its
year. -/
def age_groups_agg (todayYear : Int) (rs : List ReservationRec) :
    Option Int × Option Int × Option Int :=
  if rs.isEmpty then (none, none, none)
  else (some (rs.map (youngFlag todayYear)).sum,
        some (rs.map (midageFlag todayYear)).sum,
        some (rs.map (oldFlag todayYear)).sum)

/-- events_by_rating (api/views.py 715-722): the filtered ratings grouped
by event name, averaged (a group is never empty, so the Coalesce of the
source never fires), descending by average, top 10. -/
def events_by_rating_agg (rts : List RateRec) : List (String × ℚ) :=
  let names := (rts.map (fun r => r.event.name)).dedup
  let rows := names.map (fun n =>
    let grp := rts.filter (fun r => r.event.name == n)
    (n, ((grp.map (fun r => (r.rate : ℚ))).sum) / (grp.length : ℚ)))
  (rows.mergeSort (fun a b => b.2 ≤ a.2)).take 10

/-- reservations_by_earnings: paid amounts summed per event name,
descending, top 10 (api/views.py 723-730). -/
def reservations_by_earnings_agg (rs : List ReservationRec) :
    List (String × ℚ) :=
  let names := (rs.map (fun r => r.event_occurrence.event.name)).dedup
  let rows := names.map (fun n =>
    (n, ((rs.filter (fun r => r.event_occurrence.event.name == n)).map
          (fun r => r.paid_amount)).sum))
  (rows.mergeSort (fun a b => b.2 ≤ a.2)).take 10

/-- The seven aggregate views of the report response. -/
structure ReportBundle where
  reservations_by_event : List (String × Nat)
  reservations_by_month : List (Int × Nat)
  attendees_languages : List (String × Nat)
  attendees_countries : List (String × Nat)
  attendees_age_groups : Option Int × Option Int × Option Int
  events_by_rating : List (String × ℚ)
  reservations_by_earnings : List (String × ℚ)
deriving DecidableEq, Repr

/-- Assembles the response from the filtered reservation and rating sets
(api/views.py 661-746). -/
def buildBundle (todayYear : Int) (resv : List ReservationRec)
    (rats : List RateRec) : ReportBundle :=
  { reservations_by_event := reservations_by_event_agg resv
    reservations_by_month := reservations_by_month_agg resv
    attendees_languages := attendees_languages_agg resv
    attendees_countries := attendees_countries_agg resv
    attendees_age_groups := age_groups_agg todayYear resv
    events_by_rating := events_by_rating_agg rats
    reservations_by_earnings := reservations_by_earnings_agg resv }

/-! ## Report date parameters: datetime.strptime(s, percent-Y-m-d)

The CPython strptime patterns are: four digits for the year, 1[0-2]|0[1-9]|[1-9]
for the month, 3[01]|[12]digit|0[1-9]|[1-9] for the day, the whole string
consumed, and the datetime constructor then rejects year 0 and a day beyond
the length of the month. -/

/-- Numeric value of a decimal digit character. -/
def digitVal (c : Char) : Int := (c.toNat - 48 : Nat)

/-- Leap year test of the proleptic Gregorian calendar. -/
def isLeap (y : Int) : Bool := (y % 4 == 0 && y % 100 != 0) || y % 400 == 0

/-- Number of days of a month. -/
def daysInMonth (y m : Int) : Int :=
  if m == 2 then (if isLeap y then 29 else 28)
  else if m == 4 || m == 6 || m == 9 || m == 11 then 30
  else 31

/-- The month pattern 1[0-2]|0[1-9] as a two-character test. -/
def month2Valid (c1 c2 : Char) : Bool :=
  (c1 == '1' && ('0' ≤ c2 && c2 ≤ '2')) || (c1 == '0' && ('1' ≤ c2 && c2 ≤ '9'))

/-- Matches the month followed by the literal dash and returns the rest.
When the two-digit alternatives match, the one-digit alternative [1-9]
cannot also match followed by a dash, so no further backtracking exists. -/
def parseMonthDash (cs : List Char) : Option (Int × List Char) :=
  match cs with
  | c1 :: c2 :: rest =>
    if month2Valid c1 c2 then
      match rest with
      | '-' :: rest2 => some (10 * digitVal c1 + digitVal c2, rest2)
      | _ => none
    else if ('1' ≤ c1 && c1 ≤ '9') && c2 == '-' then
      some (digitVal c1, rest)
    else none
  | _ => none

/-- The day pattern 3[01]|[12]digit|0[1-9] as a two-character test. -/
def day2Valid (c1 c2 : Char) : Bool :=
  (c1 == '3' && (c2 == '0' || c2 == '1'))
    || (('1' ≤ c1 && c1 ≤ '2') && c2.isDigit)
    || (c1 == '0' && ('1' ≤ c2 && c2 ≤ '9'))

/-- Matches the day against the rest of the string, which strptime requires
to be fully consumed afterwards. -/
def parseDayEnd (cs : List Char) : Option Int :=
  match cs with
  | [c1, c2] => if day2Valid c1 c2 then some (10 * digitVal c1 + digitVal c2)
                else none
  | [c1] => if '1' ≤ c1 && c1 ≤ '9' then some (digitVal c1) else none
  | _ => none

/-- datetime.strptime with the report date format: year-month-day or
nothing.  Mirrors the pattern above plus the datetime constructor checks
(year at least 1, day within the month). -/
def strptimeYMD (s : String) : Option (Int × Int × Int) :=
  match s.data with
  | y1 :: y2 :: y3 :: y4 :: '-' :: rest =>
    if y1.isDigit && y2.isDigit && y3.isDigit && y4.isDigit then
      let y := 1000 * digitVal y1 + 100 * digitVal y2 + 10 * digitVal y3
        + digitVal y4
      match parseMonthDash rest with
      | some (m, rest2) =>
        match parseDayEnd rest2 with
        | some d => if 1 ≤ y && d ≤ daysInMonth y m then some (y, m, d)
                    else none
        | none => none
      | none => none
    else none
  | _ => none

/-- A parsed report date parameter as the midnight datetime strptime
builds. -/
def toMidnight (ymd : Int × Int × Int) : DateTime :=
  ⟨ymd.1, ymd.2.1, ymd.2.2, 0, 0, 0⟩

/-- Parsing of one optional report date parameter: absent parameters are
skipped, malformed ones surface the distinct bad-date-format error
(api/views.py 643-656). -/
def parseParam (p : Option String) : Except ApiError (Option DateTime) :=
  match p with
  | none => Except.ok none
  | some s =>
    match strptimeYMD s with
    | some ymd => Except.ok (some (toMidnight ymd))
    | none => Except.error ApiError.badDateFormat

/-- Whether an event id belongs to the events of the given winery
(request.user.winery.events, api/views.py 638). -/
def isUserEvent (events : List EventRec) (wineryId eid : Int) : Bool :=
  (events.filter (fun e => e.wineryId == wineryId)).any (fun e => e.id == eid)

/-- ReportsView.get (api/views.py 636-746): restrict reservations and
ratings to the winery, parse from_date then to_date answering the distinct
date-format error on failure, filter by occurrence start after from_date,
rating creation after from_date, occurrence end before to_date, rating
creation before to_date, and build the seven aggregate views. -/
def reportGet (events : List EventRec) (wineryId : Int)
    (reservations : List ReservationRec) (rates : List RateRec)
    (fromP toP : Option String) (todayYear : Int) :
    Except ApiError ReportBundle :=
  let resv0 := reservations.filter
    (fun r => isUserEvent events wineryId r.event_occurrence.event.id)
  let rats0 := rates.filter (fun r => isUserEvent events wineryId r.event.id)
  match parseParam fromP with
  | Except.error err => Except.error err
  | Except.ok fromDt =>
    match parseParam toP with
    | Except.error err => Except.error err
    | Except.ok toDt =>
      let resv1 := match fromDt with
        | some d => resv0.filter (fun r => DateTime.le d r.event_occurrence.start)
        | none => resv0
      let rats1 := match fromDt with
        | some d => rats0.filter (fun r => DateTime.le d r.created)
        | none => rats0
      let resv2 := match toDt with
        | some d => resv1.filter (fun r => DateTime.le r.event_occurrence.endTime d)
        | none => resv1
      let rats2 := match toDt with
        | some d => rats1.filter (fun r => DateTime.le r.created d)
        | none => rats1
      Except.ok (buildBundle todayYear resv2 rats2)

/-- Folding set-at-month-index over any base list preserves its length. -/
lemma length_foldl_set (g b : List (Int × Nat)) :
    (g.foldl (fun acc mc => acc.set (mc.1 - 1).toNat mc) b).length = b.length := by
  induction g generalizing b with
  | nil => rfl
  | cons p g ih => rw [List.foldl_cons, ih, List.length_set]

/-- Entry i of the zero-fill fold: the grouped row whose month is i + 1 when
one exists (months are pairwise distinct and lie in 1..12), the base entry
otherwise. -/
lemma foldl_set_getElem (g b : List (Int × Nat)) (hb : b.length = 12)
    (hdist : g.Pairwise (fun x y => x.1 ≠ y.1))
    (hrange : ∀ p ∈ g, 1 ≤ p.1 ∧ p.1 ≤ 12) (i : Nat) (hi : i < 12) :
    (g.foldl (fun acc mc => acc.set (mc.1 - 1).toNat mc) b)[i]? =
      (g.find? (fun p => p.1 == (i : Int) + 1)).or b[i]? := by
  induction g generalizing b with
  | nil => simp
  | cons p g ih =>
    rw [List.foldl_cons, List.find?_cons]
    rcases hP : (fun q : Int × Nat => q.1 == (i : Int) + 1) p with _ | _
    · simp only [hP]
      rw [ih (b.set (p.1 - 1).toNat p) (by simp [hb]) hdist.of_cons
        (fun q hq => hrange q (List.mem_cons_of_mem _ hq))]
      have hne : (p.1 - 1).toNat ≠ i := by
        have h1 := (hrange p (List.mem_cons_self _ _)).1
        have h2 : ¬(p.1 = (i : Int) + 1) := by
          simpa using hP
        omega
      rw [List.getElem?_set_ne hne]
    · simp only [hP]
      have hp1 : p.1 = (i : Int) + 1 := by simpa using hP
      have hfind : g.find? (fun q => q.1 == (i : Int) + 1) = none := by
        rw [List.find?_eq_none]
        intro x hx
        have := (List.pairwise_cons.1 hdist).1 x hx
        simp only [beq_iff_eq]
        omega
      rw [ih (b.set (p.1 - 1).toNat p) (by simp [hb]) hdist.of_cons
        (fun q hq => hrange q (List.mem_cons_of_mem _ hq))]
      rw [hfind]
      have hidx : (p.1 - 1).toNat = i := by
        have h1 := (hrange p (List.mem_cons_self _ _)).1
        omega
      rw [hidx, List.getElem?_set_self (by omega)]
      rfl

/-- C2: for any filtered reservation set whose occurrence start months are
calendar months — in particular for every winery and date window, and for
the empty set — reservations_by_month is exactly twelve entries, months
1..12 in ascending order, each carrying the number of reservations whose
occurrence starts in that month, zero included. -/
theorem c2_months_zero_filled (rs : List ReservationRec)
    (hm : ∀ r ∈ rs, 1 ≤ r.event_occurrence.start.month
      ∧ r.event_occurrence.start.month ≤ 12) :
    reservations_by_month_agg rs =
      (List.range 12).map (fun (i : Nat) =>
        ((i : Int) + 1,
          rs.countP (fun r => r.event_occurrence.start.month == (i : Int) + 1))) := by
  apply List.ext_getElem?
  intro n
  by_cases hn : n < 12
  · have hbase : (((List.range 12).map
        (fun (i : Nat) => ((i : Int) + 1, (0 : Nat)))) : List (Int × Nat)).length = 12 := by
      simp
    have hdist : (reservations_by_month_grouped rs).Pairwise
        (fun x y => x.1 ≠ y.1) := by
      unfold reservations_by_month_grouped
      rw [List.pairwise_map]
      have hnd : (((rs.map (fun r => r.event_occurrence.start.month)).dedup).mergeSort
          (fun a b => a ≤ b)).Nodup :=
        ((List.mergeSort_perm _ _).symm).nodup (List.nodup_dedup _)
      exact hnd.imp (fun hab => hab)
    have hrange : ∀ p ∈ reservations_by_month_grouped rs, 1 ≤ p.1 ∧ p.1 ≤ 12 := by
      unfold reservations_by_month_grouped
      intro p hp
      rw [List.mem_map] at hp
      obtain ⟨m, hmem, rfl⟩ := hp
      rw [List.mem_mergeSort, List.mem_dedup, List.mem_map] at hmem
      obtain ⟨r, hr, rfl⟩ := hmem
      exact hm r hr
    rw [reservations_by_month_agg]
    rw [foldl_set_getElem _ _ hbase hdist hrange n hn]
    rw [reservations_by_month_grouped]
    rw [List.find?_map]
    have hcomp : ((fun p : Int × Nat => p.1 == (n : Int) + 1) ∘
        (fun m => (m, rs.countP (fun r => r.event_occurrence.start.month == m))))
        = fun m => m == (n : Int) + 1 := rfl
    rw [hcomp]
    rcases hfind : (((rs.map (fun r => r.event_occurrence.start.month)).dedup).mergeSort
        (fun a b => a ≤ b)).find? (fun m => m == (n : Int) + 1) with _ | m
    · have hnomem : ∀ r ∈ rs, ¬(r.event_occurrence.start.month = (n : Int) + 1) := by
        intro r hr hcontra
        rw [List.find?_eq_none] at hfind
        refine hfind (r.event_occurrence.start.month) ?_ (by simp [hcontra])
        rw [List.mem_mergeSort, List.mem_dedup, List.mem_map]
        exact ⟨r, hr, rfl⟩
      have hcnt : rs.countP
          (fun r => r.event_occurrence.start.month == (n : Int) + 1) = 0 := by
        rw [List.countP_eq_zero]
        intro r hr
        simpa using hnomem r hr
      rw [hfind]
      simp only [Option.map_none, Option.or]
      rw [List.getElem?_map, List.getElem?_map, List.getElem?_range hn]
      simp [hcnt]
    · have hmeq : m = (n : Int) + 1 := by
        have := List.find?_some hfind
        simpa using this
      subst hmeq
      rw [hfind]
      simp only [Option.map_some, Option.or, List.getElem?_map,
        List.getElem?_range hn]
      rfl
  · rw [List.getElem?_eq_none, List.getElem?_eq_none]
    · simp only [List.length_map, List.length_range]
      omega
    · rw [reservations_by_month_agg, length_foldl_set]
      simp only [List.length_map, List.length_range]
      omega

/-- A December occurrence of the sample event. -/
def sampleOccDec : OccurrenceRec :=
  ⟨⟨2020, 12, 11, 20, 0, 0⟩, ⟨2020, 12, 11, 23, 0, 0⟩, 50, sampleEvent, none, none⟩

/-- A reservation of the December occurrence. -/
def sampleResvDec : ReservationRec :=
  ⟨2, 1000, sampleTourist, sampleOccDec, none, none⟩

/-- Witness for C2 on two October reservations and one December one, the
data of the report test. -/
theorem c2_witness :
    (∀ r ∈ [sampleResv, sampleResv, sampleResvDec],
      1 ≤ r.event_occurrence.start.month ∧ r.event_occurrence.start.month ≤ 12)
    ∧ reservations_by_month_agg [sampleResv, sampleResv, sampleResvDec] =
      (List.range 12).map (fun (i : Nat) =>
        ((i : Int) + 1,
          [sampleResv, sampleResv, sampleResvDec].countP
            (fun r => r.event_occurrence.start.month == (i : Int) + 1))) :=
  ⟨by decide, c2_months_zero_filled _ (by decide)⟩

/-- The young bucket the code computes, as a predicate on a reservation:
year-difference age between 18 and 35 inclusive (the birth year lies in
[today.year - 35, today.year - 18]), false when the birth date is null. -/
def youngP (todayYear : Int) (r : ReservationRec) : Bool :=
  match r.user.birth_year with
  | some y => decide (18 ≤ todayYear - y ∧ todayYear - y ≤ 35)
  | none => false

/-- The midage bucket the code computes: year-difference age between 36 and
50 inclusive. -/
def midageP (todayYear : Int) (r : ReservationRec) : Bool :=
  match r.user.birth_year with
  | some y => decide (36 ≤ todayYear - y ∧ todayYear - y ≤ 50)
  | none => false

/-- The old bucket the code computes: year-difference age at least 51. -/
def oldP (todayYear : Int) (r : ReservationRec) : Bool :=
  match r.user.birth_year with
  | some y => decide (51 ≤ todayYear - y)
  | none => false

/-- The age bucketing claim C5 attributes to the report, following the
spec: young for year-difference age 18 to 34 inclusive, midage for 35
to 49, old for 50 and above, one bucket per reservation, null sums on an
empty set. -/
def age_groups_spec (todayYear : Int) (rs : List ReservationRec) :
    Option Int × Option Int × Option Int :=
  if rs.isEmpty then (none, none, none)
  else
    (some (rs.countP (fun r => match r.user.birth_year with
      | some y => decide (18 ≤ todayYear - y ∧ todayYear - y ≤ 34)
      | none => false) : Int),
     some (rs.countP (fun r => match r.user.birth_year with
      | some y => decide (35 ≤ todayYear - y ∧ todayYear - y ≤ 49)
      | none => false) : Int),
     some (rs.countP (fun r => match r.user.birth_year with
      | some y => decide (50 ≤ todayYear - y)
      | none => false) : Int))

/-- A reservation by a tourist born 35 years before the sample report
date. -/
def resv1985 : ReservationRec :=
  ⟨2, 1000, ⟨some 1985, "Spanish", "Argentina"⟩, sampleOcc, none, none⟩

/-- A reservation by a tourist born in 2010: under 18 at a 2020 report. -/
def resv2010 : ReservationRec :=
  ⟨2, 1000, ⟨some 2010, "Spanish", "Argentina"⟩, sampleOcc, none, none⟩

/-- A reservation whose tourist has no recorded birth date. -/
def resvNoBirth : ReservationRec :=
  ⟨2, 1000, ⟨none, "Spanish", "Argentina"⟩, sampleOcc, none, none⟩

/-- C5 counterexample: at a 2020 report, a tourist born in 1985 has
year-difference age 35; the claim places that reservation in the midage
bucket, but the code counts it as young — the code buckets are 18 to 35,
36 to 50 and 51 and above, not 18 to 34, 35 to 49 and 50 and above.
Moreover a reservation by a tourist under 18 (born 2010), or with no birth
date at all, contributes to none of the three buckets, against the claim
that every filtered reservation contributes to exactly one. -/
theorem c5_counterexample :
    age_groups_agg 2020 [resv1985] = (some 1, some 0, some 0)
    ∧ age_groups_spec 2020 [resv1985] = (some 0, some 1, some 0)
    ∧ age_groups_agg 2020 [resv1985] ≠ age_groups_spec 2020 [resv1985]
    ∧ age_groups_agg 2020 [resv2010] = (some 0, some 0, some 0)
    ∧ age_groups_agg 2020 [resvNoBirth] = (some 0, some 0, some 0) := by
  refine ⟨by decide, by decide, by decide, by decide, by decide⟩

/-- Sum of a zero-or-one flag over a list is the matching count. -/
lemma sum_map_flag {α : Type} (l : List α) (f : α → Int) (p : α → Bool)
    (hf : ∀ a, f a = if p a then 1 else 0) :
    (l.map f).sum = (l.countP p : Int) := by
  induction l with
  | nil => rfl
  | cons a l ih =>
    rw [List.map_cons, List.sum_cons, ih, List.countP_cons, hf a]
    by_cases hp : p a
    · simp [hp]
      omega
    · simp [hp]

/-- The young SQL flag equals the indicator of the young predicate. -/
lemma youngFlag_eq (todayYear : Int) (r : ReservationRec) :
    youngFlag todayYear r = if youngP todayYear r then 1 else 0 := by
  cases hby : r.user.birth_year <;> simp only [youngFlag, youngP, hby]
  · rfl
  · simp only [decide_eq_true_eq]
    split_ifs with h1 h2 <;> first | rfl | omega

/-- The midage SQL flag equals the indicator of the midage predicate. -/
lemma midageFlag_eq (todayYear : Int) (r : ReservationRec) :
    midageFlag todayYear r = if midageP todayYear r then 1 else 0 := by
  cases hby : r.user.birth_year <;> simp only [midageFlag, midageP, hby]
  · rfl
  · simp only [decide_eq_true_eq]
    split_ifs with h1 h2 <;> first | rfl | omega

/-- The old SQL flag equals the indicator of the old predicate. -/
lemma oldFlag_eq (todayYear : Int) (r : ReservationRec) :
    oldFlag todayYear r = if oldP todayYear r then 1 else 0 := by
  cases hby : r.user.birth_year <;> simp only [oldFlag, oldP, hby]
  · rfl
  · simp only [decide_eq_true_eq]
    split_ifs with h1 h2 <;> first | rfl | omega

/-- C5 amended: the three sums are null exactly when the filtered set is
empty, and otherwise are reservation-counts of the code buckets — young
for year-difference age 18 to 35 inclusive, midage for 36 to 50, old for
51 and above — and each reservation contributes to exactly one bucket when
its tourist has a birth year of age at least 18, and to no bucket at all
when the tourist is younger than 18 or has no birth date. -/
theorem c5_amended (todayYear : Int) (rs : List ReservationRec) :
    age_groups_agg todayYear rs =
      (if rs.isEmpty then (none, none, none)
       else (some (rs.countP (youngP todayYear) : Int),
             some (rs.countP (midageP todayYear) : Int),
             some (rs.countP (oldP todayYear) : Int)))
    ∧ ∀ r ∈ rs,
        ((if youngP todayYear r then 1 else 0)
          + (if midageP todayYear r then 1 else 0)
          + (if oldP todayYear r then 1 else 0) : Int)
        = (match r.user.birth_year with
           | some y => if 18 ≤ todayYear - y then 1 else 0
           | none => 0) := by
  constructor
  · by_cases hemp : rs.isEmpty
    · rw [age_groups_agg, if_pos hemp, if_pos hemp]
    · rw [age_groups_agg, if_neg hemp, if_neg hemp,
        sum_map_flag rs _ (youngP todayYear) (youngFlag_eq todayYear),
        sum_map_flag rs _ (midageP todayYear) (midageFlag_eq todayYear),
        sum_map_flag rs _ (oldP todayYear) (oldFlag_eq todayYear)]
  · intro r hr
    cases hby : r.user.birth_year <;>
      simp only [youngP, midageP, oldP, hby]
    · rfl
    · simp only [decide_eq_true_eq]
      split_ifs <;> omega

/-- Witness for C5 amended: null sums on the empty window and counted
buckets on the single 1985 reservation. -/
theorem c5_witness :
    age_groups_agg 2020 ([] : List ReservationRec) = (none, none, none)
    ∧ age_groups_agg 2020 [resv1985] =
      (some (([resv1985] : List ReservationRec).countP (youngP 2020) : Int),
       some (([resv1985] : List ReservationRec).countP (midageP 2020) : Int),
       some (([resv1985] : List ReservationRec).countP (oldP 2020) : Int)) := by
  constructor
  · have h := (c5_amended 2020 ([] : List ReservationRec)).1
    simpa using h
  · have h := (c5_amended 2020 [resv1985]).1
    simpa using h

/-- C6 counterexample: a winery event with no ratings at all does not appear
in events_by_rating with average 0 as the claim states — the query groups
the ratings, so the event is simply absent (the coalesce never applies). -/
theorem c6_counterexample :
    isUserEvent [sampleEvent] 1 sampleEvent.id = true
    ∧ reportGet [sampleEvent] 1 [] [] none none 2020
        = Except.ok (buildBundle 2020 [] [])
    ∧ (buildBundle 2020 [] []).events_by_rating = []
    ∧ ¬ (("Experiencia Malbec", (0 : ℚ))
          ∈ (buildBundle 2020 [] []).events_by_rating) := by
  refine ⟨by decide, rfl, ?_, ?_⟩
  · simp [buildBundle, events_by_rating_agg]
  · simp [buildBundle, events_by_rating_agg]

/-- The name components of a descending top slice stay pairwise distinct
when the grouped rows carry pairwise distinct names. -/
lemma take_mergeSort_nodup_fst (L : List (String × ℚ))
    (h : (L.map Prod.fst).Nodup) :
    (((L.mergeSort (fun a b => decide (b.2 ≤ a.2))).take 10).map Prod.fst).Nodup := by
  rw [List.map_take]
  apply List.Nodup.sublist (List.take_sublist _ _)
  exact ((List.mergeSort_perm L _).map Prod.fst).symm.nodup h

/-- A grouped row left out of the descending top slice carries a value at
most every kept value. -/
lemma take_mergeSort_dominates (L : List (String × ℚ)) (x : String × ℚ)
    (hx : x ∈ L)
    (hout : x ∉ (L.mergeSort (fun a b => decide (b.2 ≤ a.2))).take 10) :
    ∀ p ∈ (L.mergeSort (fun a b => decide (b.2 ≤ a.2))).take 10, x.2 ≤ p.2 := by
  intro p hp
  have hsorted := @List.sorted_mergeSort (String × ℚ)
    (fun a b => decide (b.2 ≤ a.2))
    (fun a b c hab hbc => by
      simp only [decide_eq_true_eq] at hab hbc ⊢
      exact le_trans hbc hab)
    (fun a b => by
      simp only [Bool.or_eq_true, decide_eq_true_eq]
      exact le_total b.2 a.2) L
  have h1 : x ∈ L.mergeSort (fun a b => decide (b.2 ≤ a.2)) :=
    List.mem_mergeSort.2 hx
  have hsplit := List.take_append_drop 10
    (L.mergeSort (fun a b => decide (b.2 ≤ a.2)))
  have h3 : x ∈ (L.mergeSort (fun a b => decide (b.2 ≤ a.2))).drop 10 := by
    rcases List.mem_append.1 (hsplit ▸ h1) with h | h
    · exact absurd h hout
    · exact h
  rw [← hsplit] at hsorted
  have := (List.pairwise_append.1 hsorted).2.2 p hp x h3
  simpa using this

/-- With at most ten grouped rows the top slice keeps every row. -/
lemma take_mergeSort_complete (L : List (String × ℚ)) (x : String × ℚ)
    (hx : x ∈ L) (hlen : L.length ≤ 10) :
    x ∈ (L.mergeSort (fun a b => decide (b.2 ≤ a.2))).take 10 := by
  rw [List.take_of_length_le (by rw [List.length_mergeSort]; exact hlen)]
  exact List.mem_mergeSort.2 hx

/-- C6 amended: events_by_rating lists only event names carrying at least
one filtered rating — an unrated event is absent rather than coalesced to
average 0 — each rated name at most once with the true average of its
ratings, in descending order of average, truncated to the top ten: a rated
name that is left out is dominated by every kept average, and when at most
ten names are rated every one of them appears; and within the report this
view is computed from the ratings alone, unaffected by the reservation set
the date window selects. -/
theorem c6_events_by_rating_amended (rts : List RateRec) (events : List EventRec)
    (wid : Int) (rs rsOther : List ReservationRec) (fromP toP : Option String)
    (todayYear : Int) :
    (∀ p ∈ events_by_rating_agg rts,
      (∃ r ∈ rts, r.event.name = p.1)
      ∧ p.2 = ((rts.filter (fun r => r.event.name == p.1)).map
            (fun r => (r.rate : ℚ))).sum
          / (((rts.filter (fun r => r.event.name == p.1)).length : ℚ)))
    ∧ (events_by_rating_agg rts).Pairwise (fun a b => b.2 ≤ a.2)
    ∧ (events_by_rating_agg rts).length
        = min 10 ((rts.map (fun r => r.event.name)).dedup.length)
    ∧ ((events_by_rating_agg rts).map Prod.fst).Nodup
    ∧ (∀ n ∈ (rts.map (fun r => r.event.name)).dedup,
        (∀ p ∈ events_by_rating_agg rts, p.1 ≠ n) →
        ∀ p ∈ events_by_rating_agg rts,
          ((rts.filter (fun r => r.event.name == n)).map
              (fun r => (r.rate : ℚ))).sum
            / (((rts.filter (fun r => r.event.name == n)).length : ℚ)) ≤ p.2)
    ∧ (∀ n ∈ (rts.map (fun r => r.event.name)).dedup,
        (rts.map (fun r => r.event.name)).dedup.length ≤ 10 →
        ∃ p ∈ events_by_rating_agg rts, p.1 = n)
    ∧ (reportGet events wid rs rts fromP toP todayYear).map
        (fun b => b.events_by_rating)
      = (reportGet events wid rsOther rts fromP toP todayYear).map
        (fun b => b.events_by_rating) := by
  refine ⟨?_, ?_, ?_, ?_, ?_, ?_, ?_⟩
  · intro p hp
    rw [events_by_rating_agg] at hp
    have hp2 := List.mem_mergeSort.1 (List.mem_of_mem_take hp)
    rw [List.mem_map] at hp2
    obtain ⟨n, hn, rfl⟩ := hp2
    rw [List.mem_dedup, List.mem_map] at hn
    obtain ⟨r, hr, rfl⟩ := hn
    exact ⟨⟨r, hr, rfl⟩, rfl⟩
  · rw [events_by_rating_agg]
    apply List.Pairwise.sublist (List.take_sublist _ _)
    have hs := @List.sorted_mergeSort (String × ℚ)
      (fun a b => decide (b.2 ≤ a.2))
      (fun a b c hab hbc => by
        simp only [decide_eq_true_eq] at hab hbc ⊢
        exact le_trans hbc hab)
      (fun a b => by
        simp only [Bool.or_eq_true, decide_eq_true_eq]
        exact le_total b.2 a.2)
      ((rts.map (fun r => r.event.name)).dedup.map (fun n =>
        (n, ((rts.filter (fun r => r.event.name == n)).map
              (fun r => (r.rate : ℚ))).sum
            / (((rts.filter (fun r => r.event.name == n)).length : ℚ)))))
    exact hs.imp (fun h => by simpa using h)
  · rw [events_by_rating_agg]
    rw [List.length_take, List.length_mergeSort, List.length_map]
  · rw [events_by_rating_agg]
    apply take_mergeSort_nodup_fst
    rw [List.map_map]
    have hnd : (((rts.map (fun r => r.event.name)).dedup).map
        (fun n : String => n)).Nodup := by
      rw [List.map_id']
      exact List.nodup_dedup _
    exact hnd
  · intro n hn hnot p hp
    rw [events_by_rating_agg] at hnot hp
    refine take_mergeSort_dominates _
      (n, ((rts.filter (fun r => r.event.name == n)).map
          (fun r => (r.rate : ℚ))).sum
        / (((rts.filter (fun r => r.event.name == n)).length : ℚ)))
      (List.mem_map.2 ⟨n, hn, rfl⟩) (fun hmem => hnot _ hmem rfl) p hp
  · intro n hn hlen
    refine ⟨(n, ((rts.filter (fun r => r.event.name == n)).map
        (fun r => (r.rate : ℚ))).sum
      / (((rts.filter (fun r => r.event.name == n)).length : ℚ))), ?_, rfl⟩
    rw [events_by_rating_agg]
    apply take_mergeSort_complete
    · exact List.mem_map.2 ⟨n, hn, rfl⟩
    · rw [List.length_map]
      exact hlen
  · rw [reportGet, reportGet]
    cases parseParam fromP with
    | error e => rfl
    | ok fromDt =>
      cases parseParam toP with
      | error e => rfl
      | ok toDt => cases fromDt <;> cases toDt <;> rfl

/-- Witness for C6 amended: the events_by_rating view is unchanged when the
reservation set changes. -/
theorem c6_witness :
    (reportGet [sampleEvent] 1 [sampleResv] [] none none 2020).map
        (fun b => b.events_by_rating)
      = (reportGet [sampleEvent] 1 [] [] none none 2020).map
        (fun b => b.events_by_rating) :=
  (c6_events_by_rating_amended [] [sampleEvent] 1 [sampleResv] [] none none
    2020).2.2.2.2.2.2

/-- C8: the report answers the distinct date-format validation error exactly
when a supplied from_date or to_date fails to parse as a year-month-day
date, and when both parse it succeeds with the reservations narrowed to
the winery rows whose occurrence start is at or after from_date (when
given) and whose occurrence end is at or before to_date (when given), and
the ratings narrowed by creation timestamp within the same window. -/
theorem c8_report_date_filtering (events : List EventRec) (wid : Int)
    (rs : List ReservationRec) (rts : List RateRec)
    (fromP toP : Option String) (ty : Int) :
    (reportGet events wid rs rts fromP toP ty
        = Except.error ApiError.badDateFormat
      ↔ ((∃ s, fromP = some s ∧ strptimeYMD s = none)
          ∨ (∃ s, toP = some s ∧ strptimeYMD s = none)))
    ∧ ∀ fOpt tOpt, parseParam fromP = Except.ok fOpt →
        parseParam toP = Except.ok tOpt →
        reportGet events wid rs rts fromP toP ty =
          Except.ok (buildBundle ty
            (rs.filter (fun r =>
              isUserEvent events wid r.event_occurrence.event.id
              && (match fOpt with
                  | some d => DateTime.le d r.event_occurrence.start
                  | none => true)
              && (match tOpt with
                  | some d => DateTime.le r.event_occurrence.endTime d
                  | none => true)))
            (rts.filter (fun r =>
              isUserEvent events wid r.event.id
              && (match fOpt with
                  | some d => DateTime.le d r.created
                  | none => true)
              && (match tOpt with
                  | some d => DateTime.le r.created d
                  | none => true)))) := by
  constructor
  · rw [reportGet]
    rcases fromP with _ | sf
    · rcases toP with _ | st
      · simp [parseParam]
      · simp only [parseParam]
        rcases hst : strptimeYMD st with _ | ymd
        · simp [hst]
        · simp [hst]
    · simp only [parseParam]
      rcases hsf : strptimeYMD sf with _ | ymdf
      · simp [hsf]
      · rcases toP with _ | st
        · simp [hsf, parseParam]
        · simp only [parseParam]
          rcases hst : strptimeYMD st with _ | ymd
          · simp [hsf, hst]
          · simp [hsf, hst]
  · intro fOpt tOpt hpf hpt
    rw [reportGet, hpf, hpt]
    rcases fOpt with _ | fd <;> rcases tOpt with _ | td <;>
      simp only [List.filter_filter] <;>
        refine congrArg Except.ok (congrArg₂ (buildBundle ty)
          (List.filter_congr ?_) (List.filter_congr ?_)) <;>
          intro a ha <;>
            simp [Bool.and_comm, Bool.and_assoc, Bool.and_left_comm]

/-- Witness for C8 with a well-formed from_date and no to_date. -/
theorem c8_witness :
    parseParam (some "2020-01-02")
        = Except.ok (some (⟨2020, 1, 2, 0, 0, 0⟩ : DateTime))
    ∧ reportGet [] 1 [] [] (some "2020-01-02") none 2020
        = Except.ok (buildBundle 2020
            (([] : List ReservationRec).filter (fun r =>
              isUserEvent [] 1 r.event_occurrence.event.id
              && (match some (⟨2020, 1, 2, 0, 0, 0⟩ : DateTime) with
                  | some d => DateTime.le d r.event_occurrence.start
                  | none => true)
              && (match (none : Option DateTime) with
                  | some d => DateTime.le r.event_occurrence.endTime d
                  | none => true)))
            (([] : List RateRec).filter (fun r =>
              isUserEvent [] 1 r.event.id
              && (match some (⟨2020, 1, 2, 0, 0, 0⟩ : DateTime) with
                  | some d => DateTime.le d r.created
                  | none => true)
              && (match (none : Option DateTime) with
                  | some d => DateTime.le r.created d
                  | none => true)))) :=
  ⟨rfl, (c8_report_date_filtering [] 1 [] [] (some "2020-01-02") none 2020).2
    (some ⟨2020, 1, 2, 0, 0, 0⟩) none rfl rfl⟩

/-! ## C10: the report never reads cancellation state

Erasing every cancellation timestamp and reason from a database state is
invisible to the report: none of its filters or aggregations reads those
fields. -/

/-- An event with its cancellation pair blanked. -/
def eraseEv (e : EventRec) : EventRec :=
  { e with cancelled := none, cancel_reason := none }

/-- An occurrence with its own and its event cancellation pairs blanked. -/
def eraseOcc (o : OccurrenceRec) : OccurrenceRec :=
  { o with cancelled := none, cancel_reason := none, event := eraseEv o.event }

/-- A reservation with every cancellation pair in it blanked. -/
def eraseResv (r : ReservationRec) : ReservationRec :=
  { r with cancelled := none, cancel_reason := none,
           event_occurrence := eraseOcc r.event_occurrence }

/-- A rating with its event cancellation pair blanked. -/
def eraseRate (rt : RateRec) : RateRec := { rt with event := eraseEv rt.event }

/-- Membership of the winery event set ignores cancellation fields. -/
lemma isUserEvent_erase (events : List EventRec) (wid eid : Int) :
    isUserEvent (events.map eraseEv) wid eid = isUserEvent events wid eid := by
  rw [isUserEvent, isUserEvent, List.filter_map, List.any_map]
  rfl

/-- reservations_by_event ignores cancellation fields. -/
lemma rbe_erase (rs : List ReservationRec) :
    reservations_by_event_agg (rs.map eraseResv) = reservations_by_event_agg rs := by
  simp only [reservations_by_event_agg, List.map_map, List.countP_map]
  rfl

/-- The grouped month query ignores cancellation fields. -/
lemma rbmg_erase (rs : List ReservationRec) :
    reservations_by_month_grouped (rs.map eraseResv)
      = reservations_by_month_grouped rs := by
  simp only [reservations_by_month_grouped, List.map_map, List.countP_map]
  rfl

/-- reservations_by_month ignores cancellation fields. -/
lemma rbm_erase (rs : List ReservationRec) :
    reservations_by_month_agg (rs.map eraseResv)
      = reservations_by_month_agg rs := by
  simp only [reservations_by_month_agg, rbmg_erase]

/-- attendees_languages ignores cancellation fields. -/
lemma lang_erase (rs : List ReservationRec) :
    attendees_languages_agg (rs.map eraseResv) = attendees_languages_agg rs := by
  simp only [attendees_languages_agg, List.map_map, List.countP_map]
  rfl

/-- attendees_countries ignores cancellation fields. -/
lemma ctry_erase (rs : List ReservationRec) :
    attendees_countries_agg (rs.map eraseResv) = attendees_countries_agg rs := by
  simp only [attendees_countries_agg, List.map_map, List.countP_map]
  rfl

/-- attendees_age_groups ignores cancellation fields. -/
lemma age_erase (ty : Int) (rs : List ReservationRec) :
    age_groups_agg ty (rs.map eraseResv) = age_groups_agg ty rs := by
  have hemp : (rs.map eraseResv).isEmpty = rs.isEmpty := by
    cases rs <;> rfl
  simp only [age_groups_agg, hemp, List.map_map]
  rfl

/-- events_by_rating ignores cancellation fields. -/
lemma ebr_erase (rts : List RateRec) :
    events_by_rating_agg (rts.map eraseRate) = events_by_rating_agg rts := by
  simp only [events_by_rating_agg, List.map_map, List.filter_map, List.length_map]
  rfl

/-- reservations_by_earnings ignores cancellation fields. -/
lemma earn_erase (rs : List ReservationRec) :
    reservations_by_earnings_agg (rs.map eraseResv)
      = reservations_by_earnings_agg rs := by
  simp only [reservations_by_earnings_agg, List.map_map, List.filter_map]
  rfl

/-- The whole response ignores cancellation fields. -/
lemma buildBundle_erase (ty : Int) (rs : List ReservationRec) (rts : List RateRec) :
    buildBundle ty (rs.map eraseResv) (rts.map eraseRate) = buildBundle ty rs rts := by
  simp only [buildBundle, rbe_erase, rbm_erase, lang_erase, ctry_erase,
    age_erase, ebr_erase, earn_erase]

/-- The report of the cancellation-erased database state equals the report
of the original state. -/
lemma reportGet_erase (events : List EventRec) (wid : Int)
    (rs : List ReservationRec) (rts : List RateRec)
    (fromP toP : Option String) (ty : Int) :
    reportGet (events.map eraseEv) wid (rs.map eraseResv) (rts.map eraseRate)
        fromP toP ty
      = reportGet events wid rs rts fromP toP ty := by
  rw [reportGet, reportGet]
  simp only [isUserEvent_erase]
  cases parseParam fromP with
  | error e => rfl
  | ok fromDt =>
    cases parseParam toP with
    | error e => rfl
    | ok toDt =>
      cases fromDt <;> cases toDt <;>
        simp only [List.filter_map] <;>
          rw [buildBundle_erase] <;> rfl

/-- C10: two database states that agree after all cancellation timestamps
and reasons of events, occurrences and reservations are erased produce
identical reports for every winery and date window — cancelled rows are
aggregated exactly like active ones in all seven views. -/
theorem c10_report_ignores_cancellation (events evB : List EventRec)
    (wid : Int) (rs rsB : List ReservationRec) (rts rtsB : List RateRec)
    (fromP toP : Option String) (ty : Int)
    (hev : events.map eraseEv = evB.map eraseEv)
    (hrs : rs.map eraseResv = rsB.map eraseResv)
    (hrt : rts.map eraseRate = rtsB.map eraseRate) :
    reportGet events wid rs rts fromP toP ty
      = reportGet evB wid rsB rtsB fromP toP ty := by
  rw [← reportGet_erase events wid rs rts fromP toP ty,
    ← reportGet_erase evB wid rsB rtsB fromP toP ty, hev, hrs, hrt]

/-- The sample reservation marked cancelled. -/
def sampleResvCancelled : ReservationRec :=
  { sampleResv with cancelled := some dt0, cancel_reason := some "sick" }

/-- Witness for C10: cancelling the sample reservation does not change the
report. -/
theorem c10_witness :
    ([sampleResv].map eraseResv = [sampleResvCancelled].map eraseResv)
    ∧ reportGet [sampleEvent] 1 [sampleResv] [] none none 2020
        = reportGet [sampleEvent] 1 [sampleResvCancelled] [] none none 2020 :=
  ⟨rfl, c10_report_ignores_cancellation [sampleEvent] [sampleEvent] 1
    [sampleResv] [sampleResvCancelled] [] [] none none 2020 rfl rfl rfl⟩

end WineApi
